import Mathlib

/-!
Shallow embedding of the sceptre-config-lint linter (`linter.py`) together
with proofs about its parameter-matching core, its per-file orchestration,
and its configuration-file discovery.

Conventions of the embedding:
* Python dictionaries are association lists `List (String × _)`; a Python
  dict cannot hold duplicate keys, and every lookup takes the first match.
* Python sets of strings are modelled canonically as duplicate-free lists
  in sorted order (`py_set`); iteration over a Python set is modelled as
  iteration in that sorted order.  No theorem below depends on the order of
  elements inside a rendered set.
* Fallible steps return `Except String _`; a raised exception is `.error`
  carrying the rendition of the exception text (the exact text of causes
  produced by external libraries is not modelled).
* External collaborators (the YAML parser, the Jinja templating engine,
  cfn-lint, `os.path.exists` and friends) are fields of a `LintEnv`
  record, quantified over in the theorems; the file-system walk is
  modelled by handing the discovery functions the list of relative paths
  under the walked root.
-/

/-- Structured value produced by YAML parsing.  Only the shapes the linter
inspects are distinguished; everything else may be encoded with `str`. -/
inductive Yaml where
  | str : String → Yaml
  | map : List (String × Yaml) → Yaml
  | seq : List Yaml → Yaml
  | null : Yaml

/-- Parameter-definition object of a template parameter: a mapping which
may contain a `Default` entry (spec data model, template `Parameters`
section values). -/
abbrev ParamDef := List (String × Yaml)

/-- Single-quote character, used by the Python `repr` of strings. -/
def pySq : String := String.singleton (Char.ofNat 39)

/-- Python `repr` of a string (quoting refinements beyond wrapping in
single quotes are not modelled; no parameter name below needs them). -/
def pyStrRepr (s : String) : String := pySq ++ s ++ pySq

/-- Test that the first character list leads the second. -/
def isLeadingOf : List Char → List Char → Bool
  | [], _ => true
  | a :: as, l =>
    match l with
    | [] => false
    | b :: bs => a == b && isLeadingOf as bs

/-- Python `s.startswith(p)` on strings, via the character lists. -/
def strStartsWith (s p : String) : Bool := isLeadingOf p.data s.data

/-- Python `s.endswith(p)` on strings, via the character lists. -/
def strEndsWith (s p : String) : Bool := p.data.isSuffixOf s.data

/-- Python truthiness of a string: non-empty. -/
def pyTruthyStr (s : String) : Bool := s != ""

/-- Python truthiness of an optional string (`None` and `""` are falsy). -/
def pyTruthyOpt : Option String → Bool
  | none => false
  | some s => s != ""

/-- Lexicographic comparison of character lists; computable order used to
give Python set iteration a canonical order. -/
def charListLe : List Char → List Char → Bool
  | [], _ => true
  | _ :: _, [] => false
  | a :: as, b :: bs =>
    if a < b then true else if b < a then false else charListLe as bs

/-- Canonical order on strings used to model set iteration. -/
def strLe (a b : String) : Bool := charListLe a.data b.data

/-- Propositional form of `strLe`. -/
def strLeP (a b : String) : Prop := strLe a b = true

instance : DecidableRel strLeP := fun a b => inferInstanceAs (Decidable (strLe a b = true))

/-- Insert a string into a list assumed sorted by `strLe`. -/
def insertSorted (x : String) : List String → List String
  | [] => [x]
  | y :: ys => if strLe x y then x :: y :: ys else y :: insertSorted x ys

/-- Insertion sort by `strLe`. -/
def sortStrings (l : List String) : List String := l.foldr insertSorted []

/-- Python `set(...)` over strings, modelled canonically: duplicates
removed, elements listed in sorted order. -/
def py_set (l : List String) : List String :=
  sortStrings l.dedup

/-- Python set difference `a - b` on canonically ordered sets. -/
def set_diff (a b : List String) : List String :=
  a.filter (fun x => !b.contains x)

/-- Python `d[k]`-style lookup in a dict modelled as an association list. -/
def assoc_get {α : Type} (d : List (String × α)) (k : String) : Option α :=
  (d.find? (fun e => e.1 == k)).map Prod.snd

/-- Python `k in d` for a dict modelled as an association list. -/
def has_key (d : List (String × Yaml)) (k : String) : Bool :=
  d.any (fun e => e.1 == k)

/-- Python `repr` of a set of strings (sorted iteration order). -/
def pySetRepr (s : List String) : String :=
  if s.isEmpty then "set()"
  else "\x7b" ++ String.intercalate ", " (s.map pyStrRepr) ++ "\x7d"

/-- Python `repr` of a list of strings. -/
def pyListRepr (s : List String) : String :=
  "[" ++ String.intercalate ", " (s.map pyStrRepr) ++ "]"

/-- Source line 138: `config_params_set = set(config_params.keys())`. -/
def config_params_set (config_params : List (String × Yaml)) : List String :=
  py_set (config_params.map Prod.fst)

/-- Source line 140: `template_params_set = set(template_params.keys())`. -/
def template_params_set (template_params : List (String × ParamDef)) : List String :=
  py_set (template_params.map Prod.fst)

/-- Source line 142: `conf_xtra_error = config_params_set - template_params_set`. -/
def conf_xtra_error (config_params : List (String × Yaml))
    (template_params : List (String × ParamDef)) : List String :=
  set_diff (config_params_set config_params) (template_params_set template_params)

/-- Source line 143: `tpl_xtra = template_params_set - config_params_set`. -/
def tpl_xtra (config_params : List (String × Yaml))
    (template_params : List (String × ParamDef)) : List String :=
  set_diff (template_params_set template_params) (config_params_set config_params)

/-- Source lines 144-147: the loop collecting the members of `tpl_xtra`
whose definition has no `Default` entry (with `template_params.get(miss, \x7b\x7d)`
defaulting to the empty dict). -/
def tpl_missing (config_params : List (String × Yaml))
    (template_params : List (String × ParamDef)) : List String :=
  (tpl_xtra config_params template_params).filter
    (fun miss => !has_key ((assoc_get template_params miss).getD []) "Default")

/-- Source lines 136-156, `match_params`: compare the configuration
parameter names with the template parameter schema and produce the
`(exit code, message)` pair.  Success returns `(0, none)` (Python
`return 0, None`). -/
def match_params (config_params : List (String × Yaml))
    (template_params : List (String × ParamDef)) : Nat × Option String :=
  if !(conf_xtra_error config_params template_params).isEmpty
      || !(tpl_missing config_params template_params).isEmpty then
    (1, some (String.intercalate "\n"
      ((if !(conf_xtra_error config_params template_params).isEmpty then
          ["Unknown params in config: "
            ++ pySetRepr (conf_xtra_error config_params template_params)]
        else [])
       ++ (if !(tpl_missing config_params template_params).isEmpty then
          ["Missing template params: "
            ++ pyListRepr (tpl_missing config_params template_params)]
        else []))))
  else (0, none)

example : match_params [("Env", Yaml.str "prod")]
    [("Env", ([] : ParamDef)), ("Size", [("Default", Yaml.str "small")])] = (0, none) := by
  decide

example : match_params [("Env", Yaml.str "prod"), ("Extra", Yaml.str "x")]
    [("Env", ([] : ParamDef))]
    = (1, some ("Unknown params in config: \x7b" ++ pySq ++ "Extra" ++ pySq ++ "\x7d")) := by
  decide

example : match_params [] [("Env", ([] : ParamDef))]
    = (1, some ("Missing template params: [" ++ pySq ++ "Env" ++ pySq ++ "]")) := by
  decide

/-- Python `os.path.join(a, b)` (posix semantics, the two-argument shape
used by the linter). -/
def os_path_join (a b : String) : String :=
  if strStartsWith b "/" then b
  else if a == "" || strEndsWith a "/" then a ++ b
  else a ++ "/" ++ b

/-- External collaborators of the per-file processor, as record fields:
`loadConfig` is `load_config` (Jinja rendering plus YAML parsing of the
configuration file), `pathExists` and `isFile` are `os.path.exists` and
`os.path.isfile`, `validateTemplate` is `validate_template` (cfn-lint,
which may itself raise), and `cfnYamlLoad` is `cfn_yaml.load` on the
template file. -/
structure LintEnv where
  loadConfig : String → List (String × Yaml) → Except String (List (String × Yaml))
  pathExists : String → Bool
  isFile : String → Bool
  validateTemplate : String → String → Except String (Nat × String)
  cfnYamlLoad : String → Except String (List (String × Yaml))

/-- Python `d[k]` with a `KeyError` when the key is absent. -/
def dict_get (d : List (String × Yaml)) (k : String) : Except String Yaml :=
  match assoc_get d k with
  | some v => Except.ok v
  | none => Except.error ("KeyError: " ++ pyStrRepr k)

/-- Coerce a YAML value to the string expected by `os.path.join`
(`TypeError` otherwise). -/
def yaml_as_str : Yaml → Except String String
  | Yaml.str s => Except.ok s
  | _ => Except.error "TypeError: expected str"

/-- Coerce a YAML value to the mapping whose `.keys()` the matcher takes
(`AttributeError` otherwise). -/
def yaml_as_map : Yaml → Except String (List (String × Yaml))
  | Yaml.map m => Except.ok m
  | _ => Except.error "AttributeError: keys"

/-- Coerce the template `Parameters` value to a schema mapping each name
to a definition dict.  A definition that is not a mapping makes Python
fail later, inside `match_params`, with a `TypeError` at the
`"Default" not in ...` test; the embedding surfaces that failure here.
Either way the failure is raised inside the `try` of `process_config`
and observably yields the same wrapped `(1, ...)` result. -/
def yaml_as_param_map : Yaml → Except String (List (String × ParamDef))
  | Yaml.map m => m.mapM (fun e =>
      match e.2 with
      | Yaml.map d => Except.ok (e.1, d)
      | _ => Except.error "TypeError: parameter definition is not a mapping")
  | _ => Except.error "AttributeError: keys"

/-- Source lines 130-131, `get_template_params`: load the template file
and index its `Parameters` section. -/
def get_template_params (env : LintEnv) (filename : String) :
    Except String (List (String × ParamDef)) := do
  let doc ← env.cfnYamlLoad filename
  let p ← dict_get doc "Parameters"
  yaml_as_param_map p

/-- Source lines 162-170: resolve the template path relative to the
project home, retrying under the `templates/` subdirectory when the
first candidate does not exist (fallback adopted only when it exists and
is a regular file). -/
def resolve_template_path (env : LintEnv) (project_home template_rel : String)
    (is_try_default_template_path : Bool) : String :=
  let template_path := os_path_join project_home template_rel
  if !env.pathExists template_path && is_try_default_template_path then
    let alt_template_path :=
      os_path_join (os_path_join project_home "templates") template_rel
    if env.pathExists alt_template_path && env.isFile alt_template_path then
      alt_template_path
    else template_path
  else template_path

/-- Source lines 176-187: combine the validator result and the matcher
result into the exit code and the report of one configuration file. -/
def combine_report (rel_template_path rel_config_path : String)
    (template_exit_code : Nat) (template_errors : String)
    (params_exit_code : Nat) (params_errors : Option String) : Nat × String :=
  let exit_code := max template_exit_code params_exit_code
  if exit_code != 0 && (pyTruthyStr template_errors || pyTruthyOpt params_errors) then
    (exit_code, String.intercalate "\n"
      ((if pyTruthyStr template_errors then
          ["FAILED: >> template errors for " ++ rel_template_path ++ ":",
           template_errors]
        else [])
       ++ (if pyTruthyOpt params_errors then
          ["FAILED: >>> config params errors for " ++ rel_config_path ++ ":",
           params_errors.getD ""]
        else [])))
  else (0, "OK")

/-- Body of the `try` block of `process_config` (source lines 160-187);
an `.error` is an exception raised by one of the per-file steps.  The
`verbose` printing is omitted (output only). -/
def process_config_try (env : LintEnv) (config_filename : String)
    (vars : List (String × Yaml)) (project_home : String)
    (linter_options : String) (is_try_default_template_path : Bool) :
    Except String (Nat × String) := do
  let config ← env.loadConfig config_filename vars
  let tplv ← dict_get config "template_path"
  let template_rel ← yaml_as_str tplv
  let rel_config_path := config_filename.drop (project_home.length + 1)
  let rel_template_path :=
    (os_path_join project_home template_rel).drop (project_home.length + 1)
  let template_path :=
    resolve_template_path env project_home template_rel is_try_default_template_path
  let tv ← env.validateTemplate template_path linter_options
  let pv ← dict_get config "parameters"
  let config_params ← yaml_as_map pv
  let template_params ← get_template_params env template_path
  let pm := match_params config_params template_params
  Except.ok (combine_report rel_template_path rel_config_path tv.1 tv.2 pm.1 pm.2)

/-- Source lines 159-189, `process_config`: run the per-file steps and
convert any raised exception into the wrapped failure pair. -/
def process_config (env : LintEnv) (config_filename : String)
    (vars : List (String × Yaml)) (project_home : String)
    (linter_options : String) (is_try_default_template_path : Bool) : Nat × String :=
  match process_config_try env config_filename vars project_home
      linter_options is_try_default_template_path with
  | Except.ok r => r
  | Except.error e =>
      (1, "Failed to process config file: " ++ config_filename ++ ": " ++ e)

/-- Source line 201, the filter condition of the first-revision discovery
function `collect_configs`, with the Python operator precedence kept:
`endswith(".yaml") or (endswith(".yml") and filename != "config.yaml")`. -/
def collect_keep (filename : String) : Bool :=
  strEndsWith filename ".yaml"
    || (strEndsWith filename ".yml" && filename != "config.yaml")

/-- Source lines 193-206, `collect_configs`, over the file names found by
the directory walk (the walk itself is the file system collaborator). -/
def collect_configs (filenames : List String) : List String :=
  filenames.filter collect_keep

/-- Source lines 208-219, `list_files_recursively`: `matchGlob pat p`
stands for the external gitwildmatch test of one pattern against one
relative path; a `PathSpec` matches a file when at least one of its
patterns does, and an empty spec is falsy.  `files` is the list of paths
under `root_dir`, already made relative (source line 214). -/
def list_files_recursively (matchGlob : String → String → Bool)
    (files : List String) (include_filters skip_filters : List String) :
    List String :=
  files.filter (fun p =>
    (include_filters.isEmpty || include_filters.any (fun pat => matchGlob pat p))
      && !((!skip_filters.isEmpty) && skip_filters.any (fun pat => matchGlob pat p)))

/-- Source lines 251-253: the skip list always starts with the reserved
`**/config.yaml` pattern and is extended with the comma-split
`--skip` argument when that is truthy. -/
def main_skip_files (args_skip : Option String) : List String :=
  "**/config.yaml" ::
    (match args_skip with
     | some s => if s != "" then s.splitOn "," else []
     | none => [])

/-- Source line 256: the include list is the comma-split `--config`
argument when truthy, else all YAML files at any depth. -/
def main_include_filters (config_filter : Option String) : List String :=
  match config_filter with
  | some s => if s != "" then s.splitOn "," else ["**/*.yaml", "**/*.yml"]
  | none => ["**/*.yaml", "**/*.yml"]

/-- Source lines 247-278, the driver loop of `__main__`: exit 0 when the
config directory is absent; otherwise discover the configuration files
and run `process_config` on each, the loop variable `comp_exit_code`
being reassigned (not maxed) on every iteration, and exit with its final
value. -/
def main_run (env : LintEnv) (matchGlob : String → String → Bool)
    (project_home : String) (files_under_config : List String)
    (vars : List (String × Yaml)) (config_filter args_skip : Option String)
    (config_dir_exists : Bool) (linter_options : String) : Nat :=
  if !config_dir_exists then 0
  else
    let configs := list_files_recursively matchGlob files_under_config
      (main_include_filters config_filter) (main_skip_files args_skip)
    configs.foldl
      (fun _comp p =>
        (process_config env
          (os_path_join (os_path_join project_home "config") p)
          vars project_home linter_options true).1)
      0

/-- Value field of a parsed YAML node as a constructor receives it: a
scalar node carries a string, a sequence node carries the list of its
item nodes, and a mapping node carries the list of its key-value node
pairs. -/
inductive NodeValue where
  | scalar : String → NodeValue
  | items : List NodeValue → NodeValue
  | pairs : List (NodeValue × NodeValue) → NodeValue

/-- Python string concatenation `s + v` against a node value: defined
only when `v` is the string of a scalar node; `str + list` (sequence or
mapping node value) raises `TypeError`. -/
def py_str_add (s : String) : NodeValue → Except String String
  | NodeValue.scalar t => Except.ok (s ++ t)
  | NodeValue.items _ => Except.error "TypeError: can only concatenate str (not list) to str"
  | NodeValue.pairs _ => Except.error "TypeError: can only concatenate str (not list) to str"

/-- Source lines 34-35, `default_constructor`: the constructor registered
for every unrecognized YAML tag, computing `tag_suffix + " " + node.value`
— the left addition is string-with-string, the right one succeeds only on
a scalar node and raises `TypeError` when `node.value` is the list of a
sequence or mapping node. -/
def default_constructor (tag_suffix : String) (node_value : NodeValue) :
    Except String String :=
  py_str_add (tag_suffix ++ " ") node_value

/-- Registry of YAML constructors of a loader: exact-tag constructors and
multi constructors keyed by a tag head (modelled collaborator state of
PyYAML); a constructor may raise. -/
structure LoaderRegistry where
  constructors : List (String × (NodeValue → Except String Yaml))
  multiConstructors : List (String × (String → NodeValue → Except String Yaml))

/-- Modelled collaborator: `Loader.add_multi_constructor` appends an
entry to the multi-constructor table (later registrations come after the
constructors the loader class already had). -/
def add_multi_constructor (reg : LoaderRegistry) (tagHead : String)
    (f : String → NodeValue → Except String Yaml) : LoaderRegistry :=
  { reg with multiConstructors := reg.multiConstructors ++ [(tagHead, f)] }

/-- Remainder of `tag` after its matched head, handed to a multi
constructor as the tag suffix. -/
def suffixFrom (tag head : String) : String := String.mk (tag.data.drop head.data.length)

/-- Modelled collaborator: PyYAML constructor dispatch for a node with
tag `tag` and value field `value` — an exact constructor wins, else the
first multi constructor whose head starts the tag, else a constructor
error is raised; an exception raised by the chosen constructor
propagates. -/
def construct_object (reg : LoaderRegistry) (tag : String) (value : NodeValue) :
    Except String Yaml :=
  match reg.constructors.find? (fun c => c.1 == tag) with
  | some c => c.2 value
  | none =>
    match reg.multiConstructors.find? (fun c => strStartsWith tag c.1) with
    | some c => c.2 (suffixFrom tag c.1) value
    | none => Except.error ("could not determine a constructor for the tag " ++ tag)

/-- Source line 36: the registry after `load_config` registers
`default_constructor` under the empty tag head, which starts every tag;
the constructed object is the returned string, and a `TypeError` raised
by `default_constructor` propagates out of the load. -/
def load_config_registry (base : LoaderRegistry) : LoaderRegistry :=
  add_multi_constructor base ""
    (fun suffix v => (default_constructor suffix v).map Yaml.str)

/-! Lemmas about the canonical set model. -/

theorem charListLe_total : ∀ a b : List Char, charListLe a b = true ∨ charListLe b a = true
  | [], _ => Or.inl rfl
  | _ :: _, [] => Or.inr rfl
  | a :: as, b :: bs => by
    by_cases hab : a < b
    · left; simp [charListLe, hab]
    · by_cases hba : b < a
      · right; simp [charListLe, hba, hab]
      · have := charListLe_total as bs
        simp [charListLe, hab, hba]
        exact this

theorem charListLe_antisymm : ∀ a b : List Char,
    charListLe a b = true → charListLe b a = true → a = b
  | [], [], _, _ => rfl
  | [], _ :: _, _, h => by simp [charListLe] at h
  | _ :: _, [], h, _ => by simp [charListLe] at h
  | a :: as, b :: bs, h₁, h₂ => by
    by_cases hab : a < b
    · have : ¬ b < a := lt_asymm hab
      simp [charListLe, hab, this] at h₂
    · by_cases hba : b < a
      · simp [charListLe, hab, hba] at h₁
      · have hEq : a = b := le_antisymm (not_lt.mp hba) (not_lt.mp hab)
        subst hEq
        simp [charListLe, lt_irrefl] at h₁ h₂
        rw [charListLe_antisymm as bs h₁ h₂]

theorem strLe_total (a b : String) : strLe a b = true ∨ strLe b a = true :=
  charListLe_total a.data b.data

theorem strLe_antisymm {a b : String} (h₁ : strLe a b = true) (h₂ : strLe b a = true) :
    a = b := by
  cases a with
  | mk da =>
    cases b with
    | mk db =>
      have := charListLe_antisymm da db h₁ h₂
      rw [this]

instance : IsAntisymm String strLeP := ⟨fun _ _ h₁ h₂ => strLe_antisymm h₁ h₂⟩

theorem insertSorted_perm (x : String) : ∀ l : List String,
    (insertSorted x l).Perm (x :: l)
  | [] => List.Perm.refl _
  | y :: ys => by
    by_cases h : strLe x y
    · simp [insertSorted, h]
    · simp only [insertSorted, h]
      simp only [Bool.false_eq_true, if_false]
      exact ((insertSorted_perm x ys).cons y).trans (List.Perm.swap x y ys)

theorem sortStrings_perm : ∀ l : List String, (sortStrings l).Perm l
  | [] => List.Perm.refl _
  | x :: xs => by
    have h1 : (sortStrings (x :: xs)).Perm (x :: sortStrings xs) :=
      insertSorted_perm x (sortStrings xs)
    exact h1.trans ((sortStrings_perm xs).cons x)

theorem py_set_perm_dedup (l : List String) : (py_set l).Perm l.dedup :=
  sortStrings_perm l.dedup

theorem mem_py_set {a : String} {l : List String} : a ∈ py_set l ↔ a ∈ l := by
  rw [(py_set_perm_dedup l).mem_iff, List.mem_dedup]

theorem nodup_py_set (l : List String) : (py_set l).Nodup :=
  ((py_set_perm_dedup l).symm.nodup (List.nodup_dedup l))

theorem charListLe_trans : ∀ a b c : List Char,
    charListLe a b = true → charListLe b c = true → charListLe a c = true
  | [], _, _, _, _ => rfl
  | _ :: _, [], _, h₁, _ => by simp [charListLe] at h₁
  | _ :: _, _ :: _, [], _, h₂ => by simp [charListLe] at h₂
  | x :: xs, y :: ys, z :: zs, h₁, h₂ => by
    by_cases hxy : x < y
    · by_cases hyz : y < z
      · simp [charListLe, lt_trans hxy hyz]
      · by_cases hzy : z < y
        · simp [charListLe, hyz, hzy] at h₂
        · have hyz' : y = z := le_antisymm (not_lt.mp hzy) (not_lt.mp hyz)
          subst hyz'
          simp [charListLe, hxy]
    · by_cases hyx : y < x
      · simp [charListLe, hxy, hyx] at h₁
      · have hxy' : x = y := le_antisymm (not_lt.mp hyx) (not_lt.mp hxy)
        subst hxy'
        simp only [charListLe, lt_irrefl, if_false] at h₁
        by_cases hyz : x < z
        · simp [charListLe, hyz]
        · by_cases hzy : z < x
          · simp [charListLe, hyz, hzy] at h₂
          · have hyz' : x = z := le_antisymm (not_lt.mp hzy) (not_lt.mp hyz)
            subst hyz'
            simp only [charListLe, lt_irrefl, if_false] at h₂ ⊢
            exact charListLe_trans xs ys zs h₁ h₂

theorem strLe_trans {a b c : String} (h₁ : strLe a b = true) (h₂ : strLe b c = true) :
    strLe a c = true :=
  charListLe_trans a.data b.data c.data h₁ h₂

instance : IsTrans String strLeP := ⟨fun _ _ _ h₁ h₂ => strLe_trans h₁ h₂⟩

instance : IsTotal String strLeP := ⟨fun a b => strLe_total a b⟩

theorem sorted_insertSorted (x : String) {l : List String}
    (h : List.Sorted strLeP l) : List.Sorted strLeP (insertSorted x l) := by
  induction l with
  | nil => simp [insertSorted, List.sorted_singleton]
  | cons y ys ih =>
    rw [List.sorted_cons] at h
    by_cases hxy : strLe x y
    · simp only [insertSorted, hxy, if_true]
      rw [List.sorted_cons]
      refine ⟨fun b hb => ?_, List.sorted_cons.mpr h⟩
      rcases List.mem_cons.mp hb with hb | hb
      · rw [hb]; exact hxy
      · exact strLe_trans hxy (h.1 b hb)
    · simp only [insertSorted, hxy, Bool.false_eq_true, if_false]
      rw [List.sorted_cons]
      refine ⟨fun b hb => ?_, ih h.2⟩
      have hb' : b ∈ x :: ys := (insertSorted_perm x ys).mem_iff.mp hb
      rcases List.mem_cons.mp hb' with hb' | hb'
      · rw [hb']
        exact (strLe_total x y).resolve_left (fun hc => hxy hc)
      · exact h.1 b hb'

theorem sorted_sortStrings : ∀ l : List String, List.Sorted strLeP (sortStrings l)
  | [] => List.sorted_nil
  | x :: xs => sorted_insertSorted x (sorted_sortStrings xs)

theorem sorted_py_set (l : List String) : List.Sorted strLeP (py_set l) :=
  sorted_sortStrings l.dedup

theorem py_set_eq_of_mem_iff {l₁ l₂ : List String}
    (h : ∀ a, a ∈ l₁ ↔ a ∈ l₂) : py_set l₁ = py_set l₂ := by
  have hsub₁ : py_set l₁ ⊆ py_set l₂ := fun a ha =>
    mem_py_set.mpr ((h a).mp (mem_py_set.mp ha))
  have hsub₂ : py_set l₂ ⊆ py_set l₁ := fun a ha =>
    mem_py_set.mpr ((h a).mpr (mem_py_set.mp ha))
  have hperm : (py_set l₁).Perm (py_set l₂) :=
    (List.subperm_of_subset (nodup_py_set l₁) hsub₁).antisymm
      (List.subperm_of_subset (nodup_py_set l₂) hsub₂)
  exact List.eq_of_perm_of_sorted hperm (sorted_py_set l₁) (sorted_py_set l₂)

theorem mem_set_diff {a : String} {s t : List String} :
    a ∈ set_diff s t ↔ a ∈ s ∧ a ∉ t := by
  simp [set_diff, List.mem_filter]

theorem set_diff_eq_nil_iff {s t : List String} :
    set_diff s t = [] ↔ ∀ a ∈ s, a ∈ t := by
  simp [set_diff, List.filter_eq_nil_iff]

/-! Characterization of the matcher. -/

theorem match_params_fst_eq_zero_iff (cp : List (String × Yaml))
    (tp : List (String × ParamDef)) :
    (match_params cp tp).1 = 0 ↔
      conf_xtra_error cp tp = [] ∧ tpl_missing cp tp = [] := by
  by_cases h1 : conf_xtra_error cp tp = []
  · by_cases h2 : tpl_missing cp tp = []
    · simp [match_params, h1, h2]
    · simp [match_params, h1, h2]
  · simp [match_params, h1]

theorem match_params_fst_eq_one_iff (cp : List (String × Yaml))
    (tp : List (String × ParamDef)) :
    (match_params cp tp).1 = 1 ↔
      ¬(conf_xtra_error cp tp = [] ∧ tpl_missing cp tp = []) := by
  by_cases h1 : conf_xtra_error cp tp = []
  · by_cases h2 : tpl_missing cp tp = []
    · simp [match_params, h1, h2]
    · simp [match_params, h1, h2]
  · simp [match_params, h1]

theorem conf_xtra_error_eq_nil_iff (cp : List (String × Yaml))
    (tp : List (String × ParamDef)) :
    conf_xtra_error cp tp = [] ↔
      ∀ k ∈ cp.map Prod.fst, k ∈ tp.map Prod.fst := by
  unfold conf_xtra_error config_params_set template_params_set
  rw [set_diff_eq_nil_iff]
  constructor
  · intro h k hk
    exact mem_py_set.mp (h k (mem_py_set.mpr hk))
  · intro h k hk
    exact mem_py_set.mpr (h k (mem_py_set.mp hk))

theorem tpl_missing_eq_nil_iff (cp : List (String × Yaml))
    (tp : List (String × ParamDef)) :
    tpl_missing cp tp = [] ↔
      ∀ k ∈ tp.map Prod.fst, k ∉ cp.map Prod.fst →
        has_key ((assoc_get tp k).getD []) "Default" = true := by
  unfold tpl_missing tpl_xtra config_params_set template_params_set
  rw [List.filter_eq_nil_iff]
  constructor
  · intro h k hk hnk
    have hmem : k ∈ set_diff (py_set (tp.map Prod.fst)) (py_set (cp.map Prod.fst)) :=
      mem_set_diff.mpr ⟨mem_py_set.mpr hk, fun hc => hnk (mem_py_set.mp hc)⟩
    have hkmiss := h k hmem
    simpa using hkmiss
  · intro h k hk
    obtain ⟨h1, h2⟩ := mem_set_diff.mp hk
    have := h k (mem_py_set.mp h1) (fun hc => h2 (mem_py_set.mpr hc))
    simp [this]

/-- C1: `match_params` returns exit code 0 iff every configuration key is
a template key and every template key absent from the configuration has a
`Default` entry in its definition, and exit code 1 otherwise. -/
theorem match_params_exit_code_iff (cp : List (String × Yaml))
    (tp : List (String × ParamDef)) :
    ((match_params cp tp).1 = 0 ↔
      ((∀ k ∈ cp.map Prod.fst, k ∈ tp.map Prod.fst) ∧
       ∀ k ∈ tp.map Prod.fst, k ∉ cp.map Prod.fst →
         has_key ((assoc_get tp k).getD []) "Default" = true)) ∧
    ((match_params cp tp).1 = 1 ↔
      ¬((∀ k ∈ cp.map Prod.fst, k ∈ tp.map Prod.fst) ∧
        ∀ k ∈ tp.map Prod.fst, k ∉ cp.map Prod.fst →
          has_key ((assoc_get tp k).getD []) "Default" = true)) := by
  rw [match_params_fst_eq_zero_iff, match_params_fst_eq_one_iff,
    conf_xtra_error_eq_nil_iff, tpl_missing_eq_nil_iff]
  exact ⟨Iff.rfl, Iff.rfl⟩

/-- C10: the match outcome depends only on the configuration parameter
names, never on the parameter values — two configurations with the same
key set give identical results against any template schema. -/
theorem match_params_ignores_values (cp₁ cp₂ : List (String × Yaml))
    (tp : List (String × ParamDef))
    (h : ∀ k, k ∈ cp₁.map Prod.fst ↔ k ∈ cp₂.map Prod.fst) :
    match_params cp₁ tp = match_params cp₂ tp := by
  have hset : config_params_set cp₁ = config_params_set cp₂ :=
    py_set_eq_of_mem_iff h
  unfold match_params conf_xtra_error tpl_missing tpl_xtra
  rw [hset]

theorem match_params_ignores_values_witness :
    match_params [("Env", Yaml.str "prod")] [("Env", ([] : ParamDef))] =
      match_params [("Env", Yaml.null)] [("Env", ([] : ParamDef))] :=
  match_params_ignores_values _ _ _ (fun _ => Iff.rfl)

/-- C4 counterexample: on the success scenario (config `Env` against
template `Env` plus defaulted `Size`) the matcher returns `(0, none)`,
not the empty-string message `(0, some "")` the claim describes. -/
theorem match_params_success_message_is_none :
    (match_params [("Env", Yaml.str "prod")]
      [("Env", ([] : ParamDef)), ("Size", [("Default", Yaml.str "small")])]).1 = 0 ∧
    (match_params [("Env", Yaml.str "prod")]
      [("Env", ([] : ParamDef)), ("Size", [("Default", Yaml.str "small")])]).2 = none ∧
    (match_params [("Env", Yaml.str "prod")]
      [("Env", ([] : ParamDef)), ("Size", [("Default", Yaml.str "small")])]).2 ≠ some "" := by
  refine ⟨by decide, by decide, by decide⟩

/-- C4 amended: `match_params` returns no message (`None`) on success,
and on failure a newline-joined diagnostic that lists the unknown-params
set and the missing-params list together in one combined message when
both are non-empty. -/
theorem match_params_message_spec (cp : List (String × Yaml))
    (tp : List (String × ParamDef)) :
    ((match_params cp tp).1 = 0 → (match_params cp tp).2 = none) ∧
    (conf_xtra_error cp tp ≠ [] → tpl_missing cp tp ≠ [] →
      (match_params cp tp).2 =
        some (("Unknown params in config: " ++ pySetRepr (conf_xtra_error cp tp) ++ "\n")
          ++ ("Missing template params: " ++ pyListRepr (tpl_missing cp tp)))) := by
  constructor
  · intro h0
    obtain ⟨h1, h2⟩ := (match_params_fst_eq_zero_iff cp tp).mp h0
    simp [match_params, h1, h2]
  · intro h1 h2
    have b1 : (conf_xtra_error cp tp).isEmpty = false := by
      simpa [List.isEmpty_iff] using h1
    have b2 : (tpl_missing cp tp).isEmpty = false := by
      simpa [List.isEmpty_iff] using h2
    simp only [match_params, b1, b2, Bool.not_false, Bool.true_or, if_true,
      List.singleton_append]
    rw [show ∀ A B : String, String.intercalate "\n" [A, B] = (A ++ "\n") ++ B
      from fun _ _ => rfl]

theorem match_params_message_spec_witness :
    (match_params [("A", Yaml.null)] [("B", ([] : ParamDef))]).2 =
      some ("Unknown params in config: " ++ pySetRepr ["A"]
        ++ "\n" ++ "Missing template params: " ++ pyListRepr ["B"]) := by
  have h := (match_params_message_spec [("A", Yaml.null)] [("B", ([] : ParamDef))]).2
    (by decide) (by decide)
  exact h

/-! Per-file processing. -/

/-- C3: whenever the per-file step sequence raises, `process_config`
catches the exception and returns the wrapped `(1, ...)` failure pair;
when the sequence completes, its result is returned unchanged — an
exception never escapes to the caller. -/
theorem process_config_isolates_failures (env : LintEnv) (cf : String)
    (vars : List (String × Yaml)) (ph lo : String) (flag : Bool) :
    (∀ e, process_config_try env cf vars ph lo flag = Except.error e →
      process_config env cf vars ph lo flag =
        (1, "Failed to process config file: " ++ cf ++ ": " ++ e)) ∧
    (∀ r, process_config_try env cf vars ph lo flag = Except.ok r →
      process_config env cf vars ph lo flag = r) := by
  constructor
  · intro e h
    simp [process_config, h]
  · intro r h
    simp [process_config, h]

/-- Environment whose configuration loading raises at once. -/
def envBoom : LintEnv where
  loadConfig := fun _ _ => Except.error "boom"
  pathExists := fun _ => false
  isFile := fun _ => false
  validateTemplate := fun _ _ => Except.ok (0, "")
  cfnYamlLoad := fun _ => Except.ok []

theorem process_config_isolates_failures_witness :
    process_config envBoom "config/c.yaml" [] "ph" "" true =
      (1, "Failed to process config file: " ++ "config/c.yaml" ++ ": " ++ "boom") :=
  (process_config_isolates_failures envBoom "config/c.yaml" [] "ph" "" true).1 "boom" rfl

/-- C6: when the template path resolved against the project home does not
exist, the resolver retries the same relative value under the
`templates/` subdirectory, adopts the fallback exactly when it exists and
is a regular file, and otherwise keeps the original path. -/
theorem resolve_template_path_fallback (env : LintEnv) (ph rel : String)
    (h : env.pathExists (os_path_join ph rel) = false) :
    ((env.pathExists (os_path_join (os_path_join ph "templates") rel)
        && env.isFile (os_path_join (os_path_join ph "templates") rel)) = true →
      resolve_template_path env ph rel true =
        os_path_join (os_path_join ph "templates") rel) ∧
    ((env.pathExists (os_path_join (os_path_join ph "templates") rel)
        && env.isFile (os_path_join (os_path_join ph "templates") rel)) = false →
      resolve_template_path env ph rel true = os_path_join ph rel) := by
  constructor <;> intro h2 <;> simp [resolve_template_path, h, h2]

/-- Environment in which only `ph/templates/t.yaml` exists. -/
def envFallback : LintEnv where
  loadConfig := fun _ _ => Except.ok []
  pathExists := fun p => p == "ph/templates/t.yaml"
  isFile := fun p => p == "ph/templates/t.yaml"
  validateTemplate := fun _ _ => Except.ok (0, "")
  cfnYamlLoad := fun _ => Except.ok []

theorem resolve_template_path_fallback_witness :
    resolve_template_path envFallback "ph" "t.yaml" true = "ph/templates/t.yaml" :=
  (resolve_template_path_fallback envFallback "ph" "t.yaml" (by decide)).1 (by decide)

/-- Environment whose template validator reports exit code 1 with an
empty diagnostic text, on a configuration whose parameters match. -/
def envSilentLint : LintEnv where
  loadConfig := fun _ _ =>
    Except.ok [("template_path", Yaml.str "t.yaml"), ("parameters", Yaml.map [])]
  pathExists := fun _ => true
  isFile := fun _ => true
  validateTemplate := fun _ _ => Except.ok (1, "")
  cfnYamlLoad := fun _ => Except.ok [("Parameters", Yaml.map [])]

/-- C5 counterexample: with a validator exit code of 1 but an empty
diagnostic text and a successful parameter match, `process_config`
returns `(0, "OK")`, not the exit code `max 1 0 = 1` the claim requires. -/
theorem process_config_nonzero_exit_swallowed :
    envSilentLint.validateTemplate "ph/t.yaml" "" = Except.ok (1, "") ∧
    match_params [] [] = (0, none) ∧
    process_config envSilentLint "ph/config/c.yaml" [] "ph" "" true = (0, "OK") ∧
    max 1 0 ≠ 0 := by
  refine ⟨rfl, by decide, by decide, by decide⟩

/-- C5 amended: for a configuration file whose per-file steps all
succeed, `process_config` returns the exit code
`max(templateExitCode, paramsExitCode)` together with the concatenated
per-file-prefixed report whenever that maximum is non-zero and at least
one of the two diagnostics is non-empty (the matcher's diagnostic is
non-empty whenever its exit code is 1); when the maximum is 0, and also
in the degenerate case of a non-zero maximum with both diagnostic texts
empty, it returns `(0, "OK")`. -/
theorem process_config_report_amended (env : LintEnv) (cf : String)
    (vars : List (String × Yaml)) (ph lo : String) (flag : Bool)
    (config : List (String × Yaml)) (template_rel : String)
    (cparams : List (String × Yaml)) (tparams : List (String × ParamDef))
    (tec : Nat) (terr : String)
    (hload : env.loadConfig cf vars = Except.ok config)
    (htpl : assoc_get config "template_path" = some (Yaml.str template_rel))
    (hpar : assoc_get config "parameters" = some (Yaml.map cparams))
    (hval : env.validateTemplate (resolve_template_path env ph template_rel flag) lo
      = Except.ok (tec, terr))
    (hget : get_template_params env (resolve_template_path env ph template_rel flag)
      = Except.ok tparams) :
    process_config env cf vars ph lo flag =
      if (max tec (match_params cparams tparams).1 != 0
          && (pyTruthyStr terr || pyTruthyOpt (match_params cparams tparams).2)) = true
      then
        (max tec (match_params cparams tparams).1,
         String.intercalate "\n"
          ((if pyTruthyStr terr then
              ["FAILED: >> template errors for "
                ++ (os_path_join ph template_rel).drop (ph.length + 1) ++ ":", terr]
            else [])
           ++ (if pyTruthyOpt (match_params cparams tparams).2 then
              ["FAILED: >>> config params errors for " ++ cf.drop (ph.length + 1) ++ ":",
               (match_params cparams tparams).2.getD ""]
            else [])))
      else (0, "OK") := by
  simp only [process_config, process_config_try, Bind.bind, Except.bind, hload,
    dict_get, htpl, yaml_as_str, hval, hpar, yaml_as_map, hget, combine_report]

/-- Environment of a fully passing configuration file. -/
def envAllOk : LintEnv where
  loadConfig := fun _ _ =>
    Except.ok [("template_path", Yaml.str "t.yaml"), ("parameters", Yaml.map [])]
  pathExists := fun _ => true
  isFile := fun _ => true
  validateTemplate := fun _ _ => Except.ok (0, "")
  cfnYamlLoad := fun _ => Except.ok [("Parameters", Yaml.map [])]

theorem process_config_report_amended_witness :
    process_config envAllOk "ph/config/c.yaml" [] "ph" "" true = (0, "OK") := by
  have h := process_config_report_amended envAllOk "ph/config/c.yaml" [] "ph" "" true
    [("template_path", Yaml.str "t.yaml"), ("parameters", Yaml.map [])] "t.yaml"
    [] [] 0 "" rfl rfl rfl rfl rfl
  exact h.trans (by decide)

/-! The driver loop. -/

/-- Environment for a project with two configuration files: loading
`ph/config/a.yaml` yields a configuration declaring the parameter `X`
that the (empty-`Parameters`) template does not know, while
`ph/config/b.yaml` declares no parameters and passes. -/
def envTwoFiles : LintEnv where
  loadConfig := fun f _ =>
    if f == "ph/config/a.yaml" then
      Except.ok [("template_path", Yaml.str "t.yaml"),
        ("parameters", Yaml.map [("X", Yaml.str "v")])]
    else
      Except.ok [("template_path", Yaml.str "t.yaml"), ("parameters", Yaml.map [])]
  pathExists := fun _ => true
  isFile := fun _ => true
  validateTemplate := fun _ _ => Except.ok (0, "")
  cfnYamlLoad := fun _ => Except.ok [("Parameters", Yaml.map [])]

/-- Concrete gitwildmatch oracle for the two-file project: only the
default include pattern matches the two YAML files. -/
def matchGlobTwoFiles (pat p : String) : Bool :=
  pat == "**/*.yaml" && strEndsWith p ".yaml"

/-- C2 evaluation: with `a.yaml` failing (exit 1) and `b.yaml` passing
(exit 0), the run exits with 0 — the exit code of the last processed
file — although the maximum exit code across the processed files is 1. -/
theorem aggregate_exit_code_last_not_max :
    (process_config envTwoFiles "ph/config/a.yaml" [] "ph" "" true).1 = 1 ∧
    (process_config envTwoFiles "ph/config/b.yaml" [] "ph" "" true).1 = 0 ∧
    main_run envTwoFiles matchGlobTwoFiles "ph" ["a.yaml", "b.yaml"] []
      none none true "" = 0 := by
  refine ⟨by decide, by decide, by decide⟩

/-! File discovery. -/

/-- C7: discovery keeps a path iff it belongs to the walked files, the
include list is empty or some include glob matches it, and it is not the
case that the exclude list is non-empty and some exclude glob matches it;
moreover, with the skip list the driver builds, any path matched by the
reserved `**/config.yaml` pattern is excluded whatever include filters
and whatever `--skip` argument the caller supplies. -/
theorem list_files_recursively_spec (matchGlob : String → String → Bool)
    (files : List String) (inc : List String) (p : String) :
    (∀ exc : List String,
      p ∈ list_files_recursively matchGlob files inc exc ↔
        (p ∈ files ∧ ((inc = [] ∨ ∃ pat ∈ inc, matchGlob pat p = true)
          ∧ ¬(exc ≠ [] ∧ ∃ pat ∈ exc, matchGlob pat p = true)))) ∧
    (∀ args_skip : Option String, matchGlob "**/config.yaml" p = true →
      p ∉ list_files_recursively matchGlob files inc (main_skip_files args_skip)) := by
  have hmain : ∀ exc : List String,
      p ∈ list_files_recursively matchGlob files inc exc ↔
        (p ∈ files ∧ ((inc = [] ∨ ∃ pat ∈ inc, matchGlob pat p = true)
          ∧ ¬(exc ≠ [] ∧ ∃ pat ∈ exc, matchGlob pat p = true))) := by
    intro exc
    simp [list_files_recursively, List.mem_filter, List.isEmpty_iff,
      List.any_eq_true, Decidable.not_and_iff_or_not, not_exists]
    tauto
  refine ⟨hmain, fun args_skip hm hmem => ?_⟩
  obtain ⟨-, -, hne⟩ := (hmain (main_skip_files args_skip)).mp hmem
  exact hne ⟨List.cons_ne_nil _ _, "**/config.yaml", List.mem_cons_self _ _, hm⟩

/-- Concrete matcher agreeing with gitwildmatch on the one pattern and
path the witness uses. -/
def matchGlobReserved (pat p : String) : Bool :=
  pat == "**/config.yaml" && p == "sub/config.yaml"

theorem list_files_recursively_spec_witness :
    "sub/config.yaml" ∉
      list_files_recursively matchGlobReserved ["sub/config.yaml"] []
        (main_skip_files none) :=
  (list_files_recursively_spec matchGlobReserved ["sub/config.yaml"] []
    "sub/config.yaml").2 none (by decide)

/-- C8: under the first revision's filter, a file named `config.yaml`
passes (it ends in `.yaml`), the `!= "config.yaml"` clause never fires in
the `.yaml` branch, and the clause takes effect only inside the `.yml`
branch — so `collect_configs` does not exclude `config.yaml`. -/
theorem collect_configs_precedence :
    collect_keep "config.yaml" = true ∧
    "config.yaml" ∈ collect_configs ["config.yaml"] ∧
    (∀ f, strEndsWith f ".yaml" = true → collect_keep f = true) ∧
    (∀ f, strEndsWith f ".yaml" = false →
      collect_keep f = (strEndsWith f ".yml" && f != "config.yaml")) := by
  refine ⟨by decide, by decide, ?_, ?_⟩
  · intro f h
    simp [collect_keep, h]
  · intro f h
    simp [collect_keep, h]

theorem collect_configs_precedence_witness :
    strEndsWith "a.yaml" ".yaml" = true ∧ collect_keep "a.yaml" = true :=
  ⟨by decide, collect_configs_precedence.2.2.1 "a.yaml" (by decide)⟩

/-! The catch-all YAML tag constructor. -/

theorem find?_append_of_forall_false {α : Type} (p : α → Bool) (l₁ l₂ : List α)
    (h : ∀ x ∈ l₁, p x = false) : (l₁ ++ l₂).find? p = l₂.find? p := by
  induction l₁ with
  | nil => rfl
  | cons a as ih =>
    rw [List.cons_append, List.find?_cons_of_neg _ (by simp [h a (List.mem_cons_self a as)]),
      ih (fun x hx => h x (List.mem_cons_of_mem a hx))]

/-- C9 counterexample: a custom tag on a sequence node — here
`!Split [","]` — reaches `default_constructor`, which computes
`tag_suffix + " " + node.value` with `node.value` a list, so the load
raises a `TypeError` on account of the tag instead of normalizing the
node; the universal no-raise claim fails on this input. -/
theorem unknown_tag_on_sequence_raises :
    construct_object (load_config_registry ⟨[], []⟩) "!Split"
        (NodeValue.items [NodeValue.scalar ","]) =
      Except.error "TypeError: can only concatenate str (not list) to str" := by
  rfl

/-- C9 amended: for a custom or unregistered tag on a scalar node (no
exact constructor, no other applicable multi constructor), the registry
`load_config` installs resolves the node to the plain string
`tag ++ " " ++ value` produced by `default_constructor` instead of
raising; on a tagged sequence or mapping node the same constructor
raises a `TypeError`, which propagates out of the load. -/
theorem unknown_tag_normalized (base : LoaderRegistry) (tag : String)
    (h₁ : base.constructors.find? (fun c => c.1 == tag) = none)
    (h₂ : ∀ c ∈ base.multiConstructors, strStartsWith tag c.1 = false) :
    (∀ value, construct_object (load_config_registry base) tag (NodeValue.scalar value) =
      Except.ok (Yaml.str (tag ++ " " ++ value))) ∧
    (∀ inner, construct_object (load_config_registry base) tag (NodeValue.items inner) =
      Except.error "TypeError: can only concatenate str (not list) to str") ∧
    (∀ prs, construct_object (load_config_registry base) tag (NodeValue.pairs prs) =
      Except.error "TypeError: can only concatenate str (not list) to str") := by
  have hcon : (load_config_registry base).constructors = base.constructors := rfl
  have hmul : (load_config_registry base).multiConstructors =
      base.multiConstructors
        ++ [("", fun suffix v => (default_constructor suffix v).map Yaml.str)] :=
    rfl
  refine ⟨fun value => ?_, fun inner => ?_, fun prs => ?_⟩ <;>
    (unfold construct_object
     rw [hcon, h₁, hmul, find?_append_of_forall_false _ _ _ (fun c hc => h₂ c hc)]
     rfl)

theorem unknown_tag_normalized_witness :
    construct_object (load_config_registry ⟨[], []⟩) "!Ref" (NodeValue.scalar "Vpc") =
      Except.ok (Yaml.str "!Ref Vpc") :=
  (unknown_tag_normalized ⟨[], []⟩ "!Ref" rfl
    (fun c hc => absurd hc (List.not_mem_nil c))).1 "Vpc"
